import Mathlib

/-!
Verification development for the PashuVision PyTorch prediction microservice
(src/backend/models/pytorch_service.py).  The definitions below are a shallow
embedding of the service code: Python strings are Lean `String`s, Python dicts
are association lists, checkpoint values are a small recursive datatype, and
the model-loading lifecycle is an explicit state machine.  Line numbers in the
doc comments refer to pytorch_service.py.
-/

namespace PashuVision

/-! ## Python string primitives used by the service -/

/-- Embedding of Python slicing `s[:n]`: the first `n` characters of `s`. -/
def pyTrunc (n : Nat) (s : String) : String := String.mk (s.data.take n)

/-- The character list of the multi-device training marker "module.". -/
def modulePat : List Char := ['m', 'o', 'd', 'u', 'l', 'e', '.']

theorem modulePat_eq_data : modulePat = "module.".data := rfl

/-- Embedding of Python substring membership `pat in s` on character lists:
true when `pat` occurs contiguously inside the list. -/
def pyContains (pat : List Char) : List Char → Bool
  | [] => pat.isEmpty
  | c :: cs => pat.isPrefixOf (c :: cs) || pyContains pat cs

/-- Embedding of Python `pat in s` on strings. -/
def pyInStr (pat s : String) : Bool := pyContains pat.data s.data

/-- Embedding of Python `s.startswith(pat)`. -/
def pyStartsWith (pat s : String) : Bool := pat.data.isPrefixOf s.data

/-- Core of Python `k.replace('module.', '')` (pytorch_service.py line 224):
scan left to right, removing every non-overlapping occurrence of "module.".
The `fuel` argument makes the recursion structural; any fuel at least the
length of the list computes the full replacement. -/
def stripModuleAux : Nat → List Char → List Char
  | 0, l => l
  | _ + 1, [] => []
  | fuel + 1, c :: cs =>
    if modulePat.isPrefixOf (c :: cs) then stripModuleAux fuel (cs.drop 6)
    else c :: stripModuleAux fuel cs

/-- Embedding of Python `k.replace('module.', '')` on a key string. -/
def stripModuleKey (k : String) : String :=
  String.mk (stripModuleAux k.data.length k.data)

/-! ## Checkpoint values

A loaded checkpoint (the result of `torch.load`, pytorch_service.py line 154)
is an arbitrary Python object; the service only ever probes it as a dict, a
tensor (through `.shape`), an int, or a list of class names. -/

/-- A dynamically typed checkpoint value.  `tensor shape` records only the
shape, which is all the service reads from weight tensors. -/
inductive PyVal where
  | tensor (shape : List Nat)
  | num (n : Nat)
  | strs (names : List String)
  | dict (entries : List (String × PyVal))

/-- Embedding of Python `k in d` followed by `d[k]` on a dict: first entry
with the given key (Python dict keys are unique). -/
def pyLookup (k : String) : List (String × PyVal) → Option PyVal
  | [] => none
  | (k2, v) :: rest => if k2 = k then some v else pyLookup k rest

/-- Checkpoint Interpreter, pytorch_service.py lines 176-190: probe the
container for the keys `model_state_dict`, `model`, `state_dict` in that
order; if none is present but some key looks like an architecture layer name
(`stem.` / `stages.` / `head.`), the container itself is the state dict; a
non-dict checkpoint is used directly.  `none` models the Python code leaving
`state_dict = None` (the load attempt then fails at line 234). -/
def extract_state_dict (checkpoint : PyVal) : Option PyVal :=
  match checkpoint with
  | .dict d =>
    match pyLookup "model_state_dict" d with
    | some v => some v
    | none =>
      match pyLookup "model" d with
      | some v => some v
      | none =>
        match pyLookup "state_dict" d with
        | some v => some v
        | none =>
          if d.any (fun kv =>
              pyStartsWith "stem." kv.1 || pyStartsWith "stages." kv.1 ||
              pyStartsWith "head." kv.1)
          then some checkpoint else none
  | v => some v

/-- Class-count resolution, pytorch_service.py lines 192-200: start from the
declared metadata value (`local_model_info.get('num_classes', 40)`); if the
state dict has the final classification layer weight `head.fc.weight`, its
leading shape dimension overrides the declared value.  `none` models a Python
exception (`.shape` on a non-tensor, or `shape[0]` on a 0-dim tensor), which
would abort the load attempt. -/
def resolve_num_classes (declared : Nat) (sd : List (String × PyVal)) : Option Nat :=
  match pyLookup "head.fc.weight" sd with
  | none => some declared
  | some (.tensor (n :: _)) => some n
  | some _ => none

/-- Key normalization, pytorch_service.py lines 221-224: if any key starts
with "module.", rebuild the dict with `k.replace('module.', '')` applied to
every key. -/
def normalize_state_dict (sd : List (String × PyVal)) : List (String × PyVal) :=
  if sd.any (fun kv => pyStartsWith "module." kv.1) then
    sd.map (fun kv => (stripModuleKey kv.1, kv.2))
  else sd

/-! ## Lifecycle Controller state

The mutable module globals of pytorch_service.py (lines 64-70), plus a
`loadsStarted` counter recording how many `load_model_background` executions
have been started (one per `start_model_loading` call whose thread spawns,
lines 568-573). -/

/-- Snapshot of the service's shared mutable state.  `model` and
`model_info_set` record whether the globals `model` and `model_info` are
non-None. -/
structure GState where
  model : Bool
  model_info_set : Bool
  model_loading : Bool
  model_load_error : Option String
  model_load_attempts : Nat
  loadsStarted : Nat
deriving DecidableEq, Repr

/-- Module-initialization state (lines 64-69): nothing loaded, no error, zero
attempts. -/
def initState : GState :=
  { model := false, model_info_set := false, model_loading := false,
    model_load_error := none, model_load_attempts := 0, loadsStarted := 0 }

/-- Configured retry bound, pytorch_service.py line 70. -/
def max_model_load_attempts : Nat := 3

/-- The lazy-loading gate shared verbatim by `/predict` (line 347) and
`/species` (line 424): `model is None and not model_loading and
model_load_error is None`. -/
def lazyGate (s : GState) : Bool :=
  !s.model && !s.model_loading && s.model_load_error.isNone

/-- Settle delay before any load work in `load_model_background`
(lines 494-498): `if not eager_load: time.sleep(5)`.  Returns the slept
seconds as a function of the `EAGER_LOAD_MODEL` flag (line 77). -/
def settle_delay_seconds (eager_load : Bool) : Nat :=
  if !eager_load then 5 else 0

/-- Outcome of one `load_model()` call inside one retry iteration of
`load_model_background` (lines 508-559): it returned True, returned False,
raised MemoryError, raised another exception inside the inner try, or raised
in the outer safety net. -/
inductive LoadOutcome where
  | success
  | failure
  | memoryError (msg : String)
  | unknownError (msg : String)
  | outerError (msg : String)
deriving DecidableEq, Repr

/-- The bounded-length error string stored for each outcome (lines 533, 540,
548, 556); `none` for success (line 530). -/
def errorMessage : LoadOutcome → Option String
  | .success => none
  | .failure => some "Model file not found or download failed"
  | .memoryError m => some ("Out of memory while loading model: " ++ pyTrunc 100 m)
  | .unknownError m => some ("Error: " ++ pyTrunc 100 m)
  | .outerError m => some ("Unknown error during model loading: " ++ pyTrunc 100 m)

/-- Net effect of one retry iteration of `load_model_background` on the
shared state: `model_loading`/`model_load_attempts` are set on entry (lines
504-506) and `model_loading` is cleared in the `finally` (line 561); a
successful `load_model()` call has set the `model` and `model_info` globals
(lines 212, 256) and cleared the error (line 530); a failed one leaves the
attempt's bounded error message behind. -/
def attemptResult (s : GState) (attempt : Nat) (o : LoadOutcome) : GState :=
  if o = .success then
    { s with model := true, model_info_set := true, model_loading := false,
             model_load_error := none, model_load_attempts := attempt }
  else
    { s with model_loading := false, model_load_error := errorMessage o,
             model_load_attempts := attempt }

/-- The retry loop of `load_model_background` (lines 500-561), one list
element per attempted `load_model()` call.  Each iteration runs only while
`attempt` is within `range(1, max_model_load_attempts + 1)` and the shutdown
flag (`sh attempt`, line 501) is clear; a successful attempt breaks out of
the loop. -/
def runLoadLoop (sh : Nat → Bool) : GState → Nat → List LoadOutcome → GState
  | s, _, [] => s
  | s, attempt, o :: rest =>
    if max_model_load_attempts < attempt then s
    else if sh attempt then s
    else if o = .success then attemptResult s attempt o
    else runLoadLoop sh (attemptResult s attempt o) (attempt + 1) rest

/-- One `load_model_background` execution from the freshly initialized module
state. -/
def load_model_background (sh : Nat → Bool) (outcomes : List LoadOutcome) : GState :=
  runLoadLoop sh initState 1 outcomes

/-! ## Interleaved request/loader events

The service is multi-threaded (Flask request threads plus the daemon loader
thread).  Each event below is one atomic group of shared-state accesses; a
schedule is a list of events. -/

/-- An atomic scheduling event. `request` is one `/predict` or `/species`
request evaluating its lazy-load gate (lines 346-352 resp. 423-431) and, if
the gate passes, calling `start_model_loading` (which spawns one
`load_model_background` thread).  `loaderBegin` is a loader thread reaching
the top of its retry loop and publishing `model_loading = True` (lines
504-506) - under lazy mode this happens only after the 5-second settle sleep. -/
inductive Ev where
  | request
  | loaderBegin (attempt : Nat)
deriving DecidableEq, Repr

/-- Effect of one event on the shared state. -/
def step (s : GState) : Ev → GState
  | .request =>
    if lazyGate s then { s with loadsStarted := s.loadsStarted + 1 } else s
  | .loaderBegin attempt =>
    { s with model_loading := true, model_load_error := none,
             model_load_attempts := attempt }

/-- Run a schedule of events. -/
def runEvents (s : GState) (evs : List Ev) : GState := evs.foldl step s

/-! ## Health endpoint -/

/-- The JSON body of a successful `/health` read (lines 324-332). -/
structure HealthOkBody where
  status : String
  service : String
  model_loaded : Bool
  model_loading : Bool
  model_load_error : Option String
  device : String
  load_attempts : Nat
deriving DecidableEq, Repr

/-- A `/health` response body: the normal body, or the catch-all fallback
body (lines 335-339). -/
inductive HealthBody where
  | ok (body : HealthOkBody)
  | fallback (status service error : String)
deriving DecidableEq, Repr

/-- The `/health` handler (lines 319-339): reads the shared state and returns
HTTP 200; if reading raises (`raised = some e`), the except branch still
returns 200 carrying `str(e)[:100]`. -/
def health (s : GState) (device : String) (raised : Option String) :
    Nat × HealthBody :=
  match raised with
  | some e => (200, .fallback "ok" "running" (pyTrunc 100 e))
  | none =>
    (200, .ok { status := "ok", service := "running", model_loaded := s.model,
                model_loading := s.model_loading,
                model_load_error := s.model_load_error, device := device,
                load_attempts := s.model_load_attempts })

/-! ## Species endpoint core -/

/-- The fixed buffalo-breed allow-list (line 472). -/
def buffalo_breeds : List String :=
  ["Murrah", "Mehsana", "Surti", "Jaffrabadi", "Nili_Ravi", "Nagpuri", "Bhadawari"]

/-- Species bucketing of a top-1 label (lines 473-475):
`any(b in breed_name for b in buffalo_breeds)` decides buffalo, everything
else is cattle. -/
def speciesOf (breed_name : String) : String :=
  if buffalo_breeds.any (fun b => pyInStr b breed_name) then "buffalo" else "cattle"

/-- Post-forward-pass core of the `/species` handler (lines 466-476), given
the softmax probability vector (modelled over ℚ) and the top-1 index
`top_idx = probabilities.argmax().item()`: pick the label, substituting
"Unknown" when the index exceeds the class list (line 469), bucket it, and
pair it with that index's probability. -/
def detect_species (breeds : List String) (probs : List ℚ) (top_idx : Nat) :
    String × ℚ :=
  let breed_name := if top_idx < breeds.length then breeds.getD top_idx "" else "Unknown"
  (speciesOf breed_name, probs.getD top_idx 0)

/-! ## Helper lemmas -/

theorem pyTrunc_length_le (n : Nat) (s : String) : (pyTrunc n s).length ≤ n := by
  show (s.data.take n).length ≤ n
  simp [List.length_take]

theorem isPrefixOf_self_append (l t : List Char) : l.isPrefixOf (l ++ t) = true := by
  induction l with
  | nil => simp [List.isPrefixOf]
  | cons c cs ih => simp [List.isPrefixOf, ih]

theorem pyContains_cons (pat : List Char) (c : Char) (cs : List Char)
    (h : pyContains pat (c :: cs) = false) :
    pat.isPrefixOf (c :: cs) = false ∧ pyContains pat cs = false := by
  have h2 := h
  rw [pyContains] at h2
  exact ⟨(Bool.or_eq_false_iff.mp h2).1, (Bool.or_eq_false_iff.mp h2).2⟩

theorem stripModuleAux_no_occ (l : List Char) : ∀ fuel : Nat, l.length ≤ fuel →
    pyContains modulePat l = false → stripModuleAux fuel l = l := by
  induction l with
  | nil => intro fuel _ _; cases fuel <;> rfl
  | cons c cs ih =>
    intro fuel hlen hocc
    cases fuel with
    | zero => exact absurd hlen (by simp)
    | succ f =>
      obtain ⟨hpre, htail⟩ := pyContains_cons _ _ _ hocc
      rw [stripModuleAux, if_neg (by simp [hpre])]
      rw [ih f (by simpa using hlen) htail]

theorem stripModuleAux_succ_pos (fuel : Nat) (c : Char) (cs : List Char)
    (h : modulePat.isPrefixOf (c :: cs) = true) :
    stripModuleAux (fuel + 1) (c :: cs) = stripModuleAux fuel (cs.drop 6) := by
  simp only [stripModuleAux]
  rw [if_pos h]

theorem stripModuleAux_strip (fuel : Nat) (l : List Char)
    (h1 : l.length ≤ fuel) (h2 : pyContains modulePat l = false) :
    stripModuleAux (fuel + 7) (modulePat ++ l) = l := by
  have hpre : modulePat.isPrefixOf ('m' :: (['o', 'd', 'u', 'l', 'e', '.'] ++ l)) = true :=
    isPrefixOf_self_append modulePat l
  have hstep := stripModuleAux_succ_pos (fuel + 6) 'm' (['o', 'd', 'u', 'l', 'e', '.'] ++ l) hpre
  show stripModuleAux ((fuel + 6) + 1) ('m' :: (['o', 'd', 'u', 'l', 'e', '.'] ++ l)) = l
  rw [hstep]
  show stripModuleAux (fuel + 6) l = l
  exact stripModuleAux_no_occ l (fuel + 6) (le_trans h1 (by omega)) h2

theorem stripModuleKey_module_append (k : String)
    (h : pyContains modulePat k.data = false) :
    stripModuleKey ("module." ++ k) = k := by
  have hdata : ("module." ++ k).data = modulePat ++ k.data := by
    cases k with
    | mk l => rfl
  have hlen : (modulePat ++ k.data).length = k.data.length + 7 := by
    rw [List.length_append, Nat.add_comm]
    rfl
  show String.mk (stripModuleAux ("module." ++ k).data.length ("module." ++ k).data) = k
  rw [hdata, hlen, stripModuleAux_strip k.data.length k.data le_rfl h]

theorem map_id_of_mem {α : Type} (l : List α) (f : α → α)
    (h : ∀ a ∈ l, f a = a) : l.map f = l := by
  induction l with
  | nil => rfl
  | cons a t ih =>
    rw [List.map_cons, h a (by simp), ih (fun x hx => h x (by simp [hx]))]

theorem errorMessage_ne_none (o : LoadOutcome) (h : o ≠ LoadOutcome.success) :
    errorMessage o ≠ none := by
  cases o <;> simp_all [errorMessage]

theorem runLoadLoop_nil (sh : Nat → Bool) (s : GState) (attempt : Nat) :
    runLoadLoop sh s attempt [] = s := rfl

theorem runLoadLoop_cons_fail (sh : Nat → Bool) (s : GState) (attempt : Nat)
    (o : LoadOutcome) (rest : List LoadOutcome) (ho : o ≠ LoadOutcome.success)
    (h1 : ¬ max_model_load_attempts < attempt) (h2 : sh attempt = false) :
    runLoadLoop sh s attempt (o :: rest) =
      runLoadLoop sh
        { s with model_loading := false, model_load_error := errorMessage o,
                 model_load_attempts := attempt }
        (attempt + 1) rest := by
  show (if max_model_load_attempts < attempt then s
        else if sh attempt then s
        else if o = LoadOutcome.success then attemptResult s attempt o
        else runLoadLoop sh (attemptResult s attempt o) (attempt + 1) rest) = _
  rw [if_neg h1, if_neg (by simp [h2]), if_neg ho, attemptResult, if_neg ho]

theorem runLoadLoop_cons_success (sh : Nat → Bool) (s : GState) (attempt : Nat)
    (rest : List LoadOutcome)
    (h1 : ¬ max_model_load_attempts < attempt) (h2 : sh attempt = false) :
    runLoadLoop sh s attempt (LoadOutcome.success :: rest) =
      { s with model := true, model_info_set := true, model_loading := false,
               model_load_error := none, model_load_attempts := attempt } := by
  show (if max_model_load_attempts < attempt then s
        else if sh attempt then s
        else if LoadOutcome.success = LoadOutcome.success then
          attemptResult s attempt LoadOutcome.success
        else runLoadLoop sh (attemptResult s attempt LoadOutcome.success)
          (attempt + 1) rest) = _
  rw [if_neg h1, if_neg (by simp [h2]), if_pos rfl, attemptResult, if_pos rfl]

theorem runLoadLoop_attempts_le (l : List LoadOutcome) :
    ∀ (sh : Nat → Bool) (s : GState) (attempt : Nat),
    (runLoadLoop sh s attempt l).model_load_attempts ≤
      Nat.max s.model_load_attempts max_model_load_attempts := by
  induction l with
  | nil => intro sh s attempt; exact Nat.le_max_left _ _
  | cons o rest ih =>
    intro sh s attempt
    show (if max_model_load_attempts < attempt then s
          else if sh attempt then s
          else if o = LoadOutcome.success then attemptResult s attempt o
          else runLoadLoop sh (attemptResult s attempt o) (attempt + 1)
            rest).model_load_attempts ≤ _
    by_cases h1 : max_model_load_attempts < attempt
    · rw [if_pos h1]; exact Nat.le_max_left _ _
    · rw [if_neg h1]
      have hatt : attempt ≤ max_model_load_attempts := Nat.not_lt.mp h1
      by_cases h2 : sh attempt = true
      · rw [if_pos h2]; exact Nat.le_max_left _ _
      · rw [if_neg h2]
        by_cases h3 : o = LoadOutcome.success
        · rw [if_pos h3, attemptResult, if_pos h3]
          exact le_trans hatt (Nat.le_max_right _ _)
        · rw [if_neg h3]
          refine le_trans (ih sh _ _) ?_
          rw [attemptResult, if_neg h3]
          exact Nat.max_le.mpr
            ⟨le_trans hatt (Nat.le_max_right _ _), Nat.le_max_right _ _⟩

theorem runLoadLoop_pre_fail_success (pre : List LoadOutcome) :
    ∀ (attempt : Nat) (s : GState) (rest : List LoadOutcome),
    (∀ o ∈ pre, o ≠ LoadOutcome.success) →
    attempt + pre.length ≤ max_model_load_attempts →
    runLoadLoop (fun _ => false) s attempt (pre ++ LoadOutcome.success :: rest) =
      { model := true, model_info_set := true, model_loading := false,
        model_load_error := none, model_load_attempts := attempt + pre.length,
        loadsStarted := s.loadsStarted } := by
  induction pre with
  | nil =>
    intro attempt s rest _ hle
    rw [List.nil_append,
        runLoadLoop_cons_success _ s attempt rest (by simpa using hle) rfl]
    simp
  | cons o pre ih =>
    intro attempt s rest hfail hle
    have hlen : attempt + (pre.length + 1) ≤ max_model_load_attempts := by
      simpa using hle
    rw [List.cons_append,
        runLoadLoop_cons_fail _ s attempt o _ (hfail o (by simp))
          (by omega) rfl,
        ih (attempt + 1) _ rest (fun x hx => hfail x (by simp [hx]))
          (by omega)]
    simp only [List.length_cons]
    congr 1
    omega

theorem requests_noop (evs : List Ev) : ∀ s : GState, lazyGate s = false →
    (∀ e ∈ evs, e = Ev.request) → runEvents s evs = s := by
  induction evs with
  | nil => intro s _ _; rfl
  | cons e rest ih =>
    intro s hg hall
    have he : e = Ev.request := hall e (by simp)
    subst he
    have hstep : step s Ev.request = s := by simp [step, hg]
    show List.foldl step (step s Ev.request) rest = s
    rw [hstep]
    exact ih s hg (fun x hx => hall x (by simp [hx]))

theorem data_module_append (k : String) :
    ("module." ++ k).data = modulePat ++ k.data := by
  cases k with
  | mk l => rfl

theorem pyStartsWith_module_append (k : String) :
    pyStartsWith "module." ("module." ++ k) = true := by
  show modulePat.isPrefixOf (("module." ++ k).data) = true
  rw [data_module_append]
  exact isPrefixOf_self_append _ _

theorem load_model_background_all_fail (o1 o2 o3 : LoadOutcome)
    (h1 : o1 ≠ LoadOutcome.success) (h2 : o2 ≠ LoadOutcome.success)
    (h3 : o3 ≠ LoadOutcome.success) :
    load_model_background (fun _ => false) [o1, o2, o3] =
      { model := false, model_info_set := false, model_loading := false,
        model_load_error := errorMessage o3, model_load_attempts := 3,
        loadsStarted := 0 } := by
  show runLoadLoop (fun _ => false) initState 1 [o1, o2, o3] = _
  rw [runLoadLoop_cons_fail _ _ _ _ _ h1 (by decide) rfl,
      runLoadLoop_cons_fail _ _ _ _ _ h2 (by decide) rfl,
      runLoadLoop_cons_fail _ _ _ _ _ h3 (by decide) rfl,
      runLoadLoop_nil]
  rfl

theorem speciesOf_binary (label : String) :
    speciesOf label = "buffalo" ∨ speciesOf label = "cattle" := by
  by_cases h : (buffalo_breeds.any fun b => pyInStr b label) = true
  · left; simp [speciesOf, h]
  · right; simp [speciesOf, h]

/-! ## Claims -/

/-- Claim C1 (the code violates it): with two concurrent first requests, each
one evaluating the lazy-load gate of `/predict` or `/species` before any
loader thread has published `model_loading = True` (which under lazy mode
only happens after a 5-second settle sleep inside the spawned thread), both
gates pass and two `load_model_background` executions are started - the gate
is a plain check-then-act on shared globals, with no mutex-guarded
"already triggered" flag.  The spec requires that exactly one load sequence
start. -/
theorem two_first_requests_start_two_loads :
    (runEvents initState [Ev.request, Ev.request]).loadsStarted = 2 := rfl

/-- Claim C2: for every internal state, and also when reading the internal
state raises, `GET /health` answers HTTP 200; in the raising case the body is
the fallback carrying the error string truncated to 100 characters. -/
theorem health_always_200 (s : GState) (device : String) (raised : Option String) :
    (health s device raised).1 = 200 ∧
    ∀ e : String, raised = some e →
      (health s device raised).2 = HealthBody.fallback "ok" "running" (pyTrunc 100 e) ∧
      (pyTrunc 100 e).length ≤ 100 := by
  refine ⟨?_, ?_⟩
  · cases raised <;> rfl
  · intro e he
    subst he
    exact ⟨rfl, pyTrunc_length_le 100 e⟩

theorem health_always_200_witness :
    (health { model := false, model_info_set := false, model_loading := true,
              model_load_error := none, model_load_attempts := 1, loadsStarted := 1 }
       "cpu" (some "boom")).1 = 200 ∧
    (health { model := false, model_info_set := false, model_loading := true,
              model_load_error := none, model_load_attempts := 1, loadsStarted := 1 }
       "cpu" (some "boom")).2 =
      HealthBody.fallback "ok" "running" (pyTrunc 100 "boom") ∧
    (pyTrunc 100 "boom").length ≤ 100 := by
  have h := health_always_200
    { model := false, model_info_set := false, model_loading := true,
      model_load_error := none, model_load_attempts := 1, loadsStarted := 1 }
    "cpu" (some "boom")
  exact ⟨h.1, (h.2 "boom" rfl).1, (h.2 "boom" rfl).2⟩

/-- Claim C3: in every execution of the retry loop the stored attempt count
never exceeds `max_model_load_attempts = 3`; and once all three attempts have
failed, `model_load_error` is permanently set, so the lazy-load gate of
`/predict` and `/species` stays closed and no schedule of further requests
ever starts another load. -/
theorem load_attempts_bounded_failure_permanent :
    (∀ (sh : Nat → Bool) (outcomes : List LoadOutcome),
      (load_model_background sh outcomes).model_load_attempts ≤
        max_model_load_attempts) ∧
    (∀ o1 o2 o3 : LoadOutcome, o1 ≠ LoadOutcome.success →
      o2 ≠ LoadOutcome.success → o3 ≠ LoadOutcome.success →
      (load_model_background (fun _ => false) [o1, o2, o3]).model_load_error ≠ none ∧
      ∀ evs : List Ev, (∀ e ∈ evs, e = Ev.request) →
        runEvents (load_model_background (fun _ => false) [o1, o2, o3]) evs =
          load_model_background (fun _ => false) [o1, o2, o3]) := by
  constructor
  · intro sh outcomes
    have h := runLoadLoop_attempts_le outcomes sh initState 1
    simpa [load_model_background, initState, Nat.zero_max] using h
  · intro o1 o2 o3 h1 h2 h3
    rw [load_model_background_all_fail o1 o2 o3 h1 h2 h3]
    obtain ⟨m, hm⟩ : ∃ m, errorMessage o3 = some m := by
      cases ho : errorMessage o3 with
      | none => exact absurd ho (errorMessage_ne_none o3 h3)
      | some m => exact ⟨m, rfl⟩
    constructor
    · simp [hm]
    · intro evs hevs
      exact requests_noop evs _ (by simp [lazyGate, hm]) hevs

theorem load_attempts_bounded_failure_permanent_witness :
    (load_model_background (fun _ => false)
      [LoadOutcome.failure, LoadOutcome.memoryError "oom",
       LoadOutcome.unknownError "boom"]).model_load_attempts ≤
      max_model_load_attempts ∧
    runEvents
      (load_model_background (fun _ => false)
        [LoadOutcome.failure, LoadOutcome.memoryError "oom",
         LoadOutcome.unknownError "boom"])
      [Ev.request, Ev.request] =
      load_model_background (fun _ => false)
        [LoadOutcome.failure, LoadOutcome.memoryError "oom",
         LoadOutcome.unknownError "boom"] :=
  ⟨load_attempts_bounded_failure_permanent.1 _ _,
   (load_attempts_bounded_failure_permanent.2 _ _ _ (by decide) (by decide)
      (by decide)).2 _ (by decide)⟩

/-- Claim C4: whenever the state dict contains the final classification
layer's weight `head.fc.weight` with leading dimension `n`, the resolved
class count is `n`, whatever the declared metadata value was. -/
theorem num_classes_inferred_from_head_weight (declared n : Nat)
    (rest : List Nat) (sd : List (String × PyVal))
    (h : pyLookup "head.fc.weight" sd = some (PyVal.tensor (n :: rest))) :
    resolve_num_classes declared sd = some n := by
  simp [resolve_num_classes, h]

theorem num_classes_inferred_from_head_weight_witness :
    resolve_num_classes 41 [("head.fc.weight", PyVal.tensor [37, 768])] = some 37 :=
  num_classes_inferred_from_head_weight 41 37 [768] _ rfl

/-- Claim C5: a checkpoint container storing the weights `W` under
`model_state_dict`, under `model` (with no `model_state_dict` key), or under
`state_dict` (with neither earlier key) yields the same extracted weights
`W`; the hypotheses encode exactly the probe order
`model_state_dict`, `model`, `state_dict`, so an earlier key always wins over
later ones. -/
theorem checkpoint_layout_equivalence (d1 d2 d3 : List (String × PyVal))
    (W : PyVal)
    (h1 : pyLookup "model_state_dict" d1 = some W)
    (h2a : pyLookup "model_state_dict" d2 = none)
    (h2b : pyLookup "model" d2 = some W)
    (h3a : pyLookup "model_state_dict" d3 = none)
    (h3b : pyLookup "model" d3 = none)
    (h3c : pyLookup "state_dict" d3 = some W) :
    extract_state_dict (PyVal.dict d1) = some W ∧
    extract_state_dict (PyVal.dict d2) = some W ∧
    extract_state_dict (PyVal.dict d3) = some W := by
  refine ⟨?_, ?_, ?_⟩ <;>
    simp [extract_state_dict, h1, h2a, h2b, h3a, h3b, h3c]

theorem checkpoint_layout_equivalence_witness :
    extract_state_dict (PyVal.dict
      [("model_state_dict", PyVal.tensor [40, 768]), ("model", PyVal.num 1)]) =
      some (PyVal.tensor [40, 768]) ∧
    extract_state_dict (PyVal.dict
      [("state_dict", PyVal.num 2), ("model", PyVal.tensor [40, 768])]) =
      some (PyVal.tensor [40, 768]) ∧
    extract_state_dict (PyVal.dict [("state_dict", PyVal.tensor [40, 768])]) =
      some (PyVal.tensor [40, 768]) :=
  checkpoint_layout_equivalence _ _ _ _ rfl rfl rfl rfl rfl rfl

/-- Claim C6 counterexample: the normalization uses Python
`k.replace('module.', '')`, which removes every occurrence of "module.",
not only the leading one.  The mapping whose single key is the unprefixed key
"a.module.b" preceded by the uniform prefix is normalized to key "a.b", not
back to "a.module.b". -/
theorem module_replace_is_not_prefix_strip :
    ("module." ++ "a.module.b" = "module.a.module.b") ∧
    normalize_state_dict [("module.a.module.b", PyVal.tensor [1])] =
      [("a.b", PyVal.tensor [1])] ∧
    ("a.b" : String) ≠ "a.module.b" :=
  ⟨rfl, rfl, by decide⟩

/-- Claim C6 as amended: for a weights mapping whose keys each carry the
uniform "module." prefix, normalization returns exactly the unprefixed
mapping provided no unprefixed key itself contains "module." as a substring
(Python `str.replace` removes every occurrence, so this proviso is
necessary). -/
theorem module_prefix_strip_inverse (sd : List (String × PyVal))
    (h : ∀ kv ∈ sd, pyContains modulePat kv.1.data = false) :
    normalize_state_dict (sd.map (fun kv => ("module." ++ kv.1, kv.2))) = sd := by
  cases sd with
  | nil => rfl
  | cons hd tl =>
    have hany : (((hd :: tl).map (fun kv => ("module." ++ kv.1, kv.2))).any
        (fun kv => pyStartsWith "module." kv.1)) = true := by
      rw [List.map_cons, List.any_cons, pyStartsWith_module_append hd.1,
          Bool.true_or]
    rw [normalize_state_dict, if_pos hany, List.map_map]
    apply map_id_of_mem
    intro kv hkv
    show (stripModuleKey ("module." ++ kv.1), kv.2) = kv
    rw [stripModuleKey_module_append kv.1 (h kv hkv)]

theorem module_prefix_strip_inverse_witness :
    normalize_state_dict
      ([("stem.0.weight", PyVal.tensor [96, 3, 4, 4])].map
        (fun kv => ("module." ++ kv.1, kv.2))) =
      [("stem.0.weight", PyVal.tensor [96, 3, 4, 4])] :=
  module_prefix_strip_inverse [("stem.0.weight", PyVal.tensor [96, 3, 4, 4])]
    (by decide)

/-- Claim C7 counterexample: the settle delay is governed by
`if not eager_load` - when the eager flag is NOT set (lazy triggering), the
loader sleeps 5 seconds before any load work, contradicting the claim that
the lazy path begins without the delay. -/
theorem settle_delay_applied_when_lazy : settle_delay_seconds false ≠ 0 := by
  decide

/-- Claim C7 as amended: the fixed settle delay is applied only under lazy
mode: with the eager flag set the load attempt begins with no delay, and with
the flag clear a 5-second settle delay precedes any load work. -/
theorem settle_delay_only_when_lazy :
    settle_delay_seconds true = 0 ∧ settle_delay_seconds false = 5 := by
  decide

/-- Claim C8 counterexample: after a failed first attempt and a successful
second attempt the model is loaded, but `model_load_attempts` still reads 2,
not its initial value 0 - nothing in the success path resets the counter. -/
theorem success_on_second_attempt_keeps_count :
    (load_model_background (fun _ => false)
      [LoadOutcome.failure, LoadOutcome.success]).model = true ∧
    initState.model_load_attempts = 0 ∧
    (load_model_background (fun _ => false)
      [LoadOutcome.failure, LoadOutcome.success]).model_load_attempts = 2 :=
  ⟨rfl, rfl, rfl⟩

/-- Claim C8 as amended: when a load attempt succeeds, the state becomes
ready - `model` and `model_info` are set, `model_loading` is False and
`model_load_error` is None - and the attempt counter retains the number of
the attempt that succeeded (it is not reset to its initial value). -/
theorem success_state_and_attempt_count (pre rest : List LoadOutcome)
    (hpre : ∀ o ∈ pre, o ≠ LoadOutcome.success)
    (hlen : pre.length < max_model_load_attempts) :
    load_model_background (fun _ => false) (pre ++ LoadOutcome.success :: rest) =
      { model := true, model_info_set := true, model_loading := false,
        model_load_error := none, model_load_attempts := pre.length + 1,
        loadsStarted := 0 } := by
  have hlen3 : pre.length < 3 := hlen
  have h := runLoadLoop_pre_fail_success pre 1 initState rest hpre
    (by show 1 + pre.length ≤ 3; omega)
  have h2 : (1 : Nat) + pre.length = pre.length + 1 := Nat.add_comm 1 _
  rw [load_model_background, h, h2]
  rfl

theorem success_state_and_attempt_count_witness :
    load_model_background (fun _ => false)
      [LoadOutcome.failure, LoadOutcome.success] =
      { model := true, model_info_set := true, model_loading := false,
        model_load_error := none, model_load_attempts := 2, loadsStarted := 0 } :=
  success_state_and_attempt_count [LoadOutcome.failure] [] (by decide) (by decide)

/-- Claim C9: the species bucketing is binary - the top-1 label is checked by
substring membership against the buffalo allow-list; a match yields
"buffalo", anything else yields "cattle", and no third species value is ever
produced by the endpoint core. -/
theorem species_bucketing_binary :
    (∀ label : String,
      (speciesOf label = "buffalo" ↔
        (buffalo_breeds.any fun b => pyInStr b label) = true)) ∧
    (∀ label : String,
      (speciesOf label = "cattle" ↔
        (buffalo_breeds.any fun b => pyInStr b label) = false)) ∧
    (∀ (breeds : List String) (probs : List ℚ) (top_idx : Nat),
      (detect_species breeds probs top_idx).1 = "buffalo" ∨
      (detect_species breeds probs top_idx).1 = "cattle") := by
  refine ⟨?_, ?_, ?_⟩
  · intro label
    by_cases h : (buffalo_breeds.any fun b => pyInStr b label) = true
    · simp [speciesOf, h]
    · simp [speciesOf, h]
  · intro label
    by_cases h : (buffalo_breeds.any fun b => pyInStr b label) = true
    · simp [speciesOf, h]
    · simp [speciesOf, h]
  · intro breeds probs top_idx
    exact speciesOf_binary _

/-- Claim C10: when the top-1 index is at least the class-list length, the
species endpoint core substitutes the label "Unknown" (which matches no
buffalo allow-list entry) instead of indexing out of bounds, and therefore
returns species "cattle" paired with that index's probability. -/
theorem species_unknown_for_out_of_range (breeds : List String)
    (probs : List ℚ) (top_idx : Nat)
    (hb : breeds.length ≤ top_idx) (hp : top_idx < probs.length) :
    (buffalo_breeds.any fun b => pyInStr b "Unknown") = false ∧
    detect_species breeds probs top_idx = ("cattle", probs[top_idx]) := by
  refine ⟨by decide, ?_⟩
  show (speciesOf (if top_idx < breeds.length then breeds.getD top_idx "" else "Unknown"),
        probs.getD top_idx 0) = ("cattle", probs[top_idx])
  rw [if_neg (Nat.not_lt.mpr hb),
      show speciesOf "Unknown" = "cattle" from by decide,
      List.getD_eq_getElem probs 0 hp]

theorem species_unknown_for_out_of_range_witness :
    detect_species ["Gir"] [0, 1] 1 = ("cattle", 1) :=
  (species_unknown_for_out_of_range ["Gir"] [0, 1] 1 (by decide) (by decide)).2

end PashuVision
